import Mathlib

/-!
Shallow embedding of the sw-ow player/character HTTP API core
(`src/api`): the error taxonomy, response envelope, request-id
middleware, caller resolution, and the player/character route handlers,
together with theorems checking the specification's claims about them.

Modelling conventions:
* The external store (Supabase tables `players` / `characters`) is an
  explicit `Store` value threaded through each handler; every supabase
  query of the handlers is translated into a list lookup / map / filter
  on that value (row ids are assumed unique, matching `.single()`).
* The external identity service (`supabase.auth.get_user`) is an oracle
  parameter `String → Except String (Option String)`: `.error msg`
  models any exception thrown by the client or the call (including an
  unconfigured client), `.ok none` models a response with no user,
  `.ok (some uid)` a resolved user.
* Reads of the clock (`datetime.utcnow`, `time.*`) and of the UUID
  generator (`uuid.uuid4()`) are explicit parameters (`now`, `fresh…`).
* Python `float` columns are carried opaquely: the handlers perform no
  floating-point arithmetic on them (pure pass-through), so they are
  modelled by `Rat` values.
* Pydantic partial-update payloads use `Option` fields: `none` models a
  field absent from the request (excluded by
  `model_dump(exclude_unset=True)`); an explicit JSON `null` for a set
  field is not distinguished from an absent field in this model.
-/

namespace SwOw

/-! ## Error taxonomy — `src/api/core/exceptions.py` -/

/-- A value inside an exception's structured `details` dict. -/
inductive DetailVal where
  | str (v : String)
  | int (v : Int)
deriving DecidableEq, Repr

/-- A `details` mapping attached to an exception. -/
abbrev Details := List (String × DetailVal)

/-- `APIException`: base of all API errors (message, machine code,
HTTP status, optional details). -/
structure APIException where
  message : String
  error_code : String
  status_code : Nat
  details : Option Details
deriving DecidableEq, Repr

/-- `ValidationError`: request validation failed (422). -/
def ValidationError (message : String) (details : Option Details) : APIException :=
  { message := message, error_code := "VALIDATION_ERROR", status_code := 422,
    details := details }

/-- `NotFoundError`: resource not found (404). -/
def NotFoundError (resource : String) (identifier : String) : APIException :=
  { message := resource ++ " with identifier \x27" ++ identifier ++ "\x27 not found",
    error_code := "NOT_FOUND", status_code := 404,
    details := some [("resource", DetailVal.str resource),
                     ("identifier", DetailVal.str identifier)] }

/-- `UnauthorizedError`: authentication required (401). -/
def UnauthorizedError (message : String) : APIException :=
  { message := message, error_code := "UNAUTHORIZED", status_code := 401,
    details := none }

/-- `ForbiddenError`: insufficient permissions (403). -/
def ForbiddenError (message : String) : APIException :=
  { message := message, error_code := "FORBIDDEN", status_code := 403,
    details := none }

/-- `ConflictError`: resource conflict, e.g. duplicate entry (409). -/
def ConflictError (message : String) (details : Option Details) : APIException :=
  { message := message, error_code := "CONFLICT", status_code := 409,
    details := details }

/-- `RateLimitError`: rate limit exceeded (429). -/
def RateLimitError (retry_after : Int) : APIException :=
  { message := "Rate limit exceeded. Retry after " ++ toString retry_after ++ " seconds",
    error_code := "RATE_LIMIT_EXCEEDED", status_code := 429,
    details := some [("retry_after", DetailVal.int retry_after)] }

/-! ## String helpers

`str.startswith` and `str.replace` of Python, modelled on `List Char`
so that everything reduces in the kernel. -/

/-- Strip `pat` from the front of `s`: `some` of the remainder when
`pat` is a leading segment of `s`, else `none`. -/
def stripPre : List Char → List Char → Option (List Char)
  | [], s => some s
  | _ :: _, [] => none
  | p :: ps, c :: cs => if p = c then stripPre ps cs else none

/-- Fuel-indexed worker for `removeAll`: at each position, if `pat`
matches it is consumed (deleted), else one character is kept.  Each
step consumes at least one character, so fuel `s.length` is enough. -/
def removeAllGo (pat : List Char) : Nat → List Char → List Char
  | _, [] => []
  | 0, s => s
  | Nat.succ n, c :: cs =>
    match stripPre pat (c :: cs) with
    | some rest => removeAllGo pat n rest
    | none => c :: removeAllGo pat n cs

/-- Python `s.replace(pat, "")`: delete every occurrence of `pat`
(scanning left to right), not only a leading one. -/
def removeAll (s pat : String) : String :=
  String.mk (removeAllGo pat.data s.data.length s.data)

/-- Python `s.startswith(pat)`. -/
def startsWithB (s pat : String) : Bool :=
  (stripPre pat.data s.data).isSome

/-- Deleting only a single leading occurrence of `pat` from `s` (what a
mere prefix strip would compute; stated for contrast with the
`removeAll` the code actually performs). -/
def dropOnce (s pat : String) : String :=
  match stripPre pat.data s.data with
  | some rest => String.mk rest
  | none => s

/-! ## Caller resolution — `get_current_user_id`
(`src/api/routes/v1/player.py`, lines 43–65). -/

/-- The external identity service: token to user resolution.
`.error msg` models an exception raised by `get_supabase_client()` or
`auth.get_user` (with `msg` its `str(e)`), `.ok none` a response whose
`user` is missing, `.ok (some uid)` success. -/
abbrev AuthOracle := String → Except String (Option String)

/-- `get_current_user_id`: extract the caller id from the bearer
header.  `authorization = none` models an absent header; Python's
truthiness check also rejects an empty header value.  The inner raise
of `UnauthorizedError "Invalid or expired token"` is itself caught by
the surrounding `except Exception` and re-wrapped, hence the
`Authentication failed:` message on that path too. -/
def get_current_user_id (authorization : Option String) (getUser : AuthOracle) :
    Except APIException String :=
  match authorization with
  | none => Except.error (UnauthorizedError "Missing authorization header")
  | some auth =>
    if auth = "" then
      Except.error (UnauthorizedError "Missing authorization header")
    else if startsWithB auth "Bearer " = false then
      Except.error (UnauthorizedError "Invalid authorization format")
    else
      match getUser (removeAll auth "Bearer ") with
      | Except.error e =>
        Except.error (UnauthorizedError ("Authentication failed: " ++ e))
      | Except.ok none =>
        Except.error (UnauthorizedError ("Authentication failed: " ++ "Invalid or expired token"))
      | Except.ok (some uid) => Except.ok uid

/-! ## Domain data — `src/api/models/player.py` and the store rows the
handlers read and write. -/

/-- `GraphicsSettings` (quality enum, flags, view distance). -/
structure GraphicsSettings where
  quality : String
  shadows : Bool
  particles : Bool
  view_distance : Nat
deriving DecidableEq, Repr

/-- `AudioSettings` (four volume sliders). -/
structure AudioSettings where
  master : Rat
  music : Rat
  sfx : Rat
  voice : Rat
deriving DecidableEq, Repr

/-- `ControlSettings` (mouse sensitivity, invert-Y flag). -/
structure ControlSettings where
  mouse_sensitivity : Rat
  invert_y : Bool
deriving DecidableEq, Repr

/-- `PlayerSettings`: the nested settings value object. -/
structure PlayerSettings where
  graphics : GraphicsSettings
  audio : AudioSettings
  controls : ControlSettings
deriving DecidableEq, Repr

/-- A row of the `players` table (fields the handlers touch). -/
structure PlayerRow where
  id : String
  auth_id : String
  username : String
  display_name : Option String
  avatar_url : Option String
  settings : Option PlayerSettings
  total_play_time_seconds : Int
  last_login : Option Nat
  login_count : Nat
deriving DecidableEq, Repr

/-- A row of the `characters` table (fields the handlers touch;
timestamps are abstract `Nat` instants). -/
structure CharacterRow where
  id : String
  player_id : String
  name : String
  slot_number : Nat
  position_x : Rat
  position_y : Rat
  position_z : Rat
  rotation_y : Rat
  current_zone : String
  level : Nat
  experience : Nat
  health : Nat
  max_health : Nat
  stamina : Nat
  max_stamina : Nat
  mana : Nat
  max_mana : Nat
  gold : Nat
  strength : Nat
  dexterity : Nat
  intelligence : Nat
  vitality : Nat
  is_dead : Bool
  total_play_time_seconds : Int
  last_played_at : Nat
deriving DecidableEq, Repr

/-- The external store: the two tables the routes use.  Row `id`s are
unique (`.single()` semantics); `(player_id, slot_number)` uniqueness
is what the create handler checks before inserting. -/
structure Store where
  players : List PlayerRow
  characters : List CharacterRow
deriving DecidableEq, Repr

/-- `players.select(…).eq("auth_id", uid).single()`. -/
def findPlayerByAuth (s : Store) (auth_id : String) : Option PlayerRow :=
  s.players.find? (fun p => p.auth_id == auth_id)

/-- `characters.select(…).eq("id", cid).single()`. -/
def findCharacter (s : Store) (cid : String) : Option CharacterRow :=
  s.characters.find? (fun c => c.id == cid)

/-- The combined ownership lookup
`characters.select("…, players!inner(auth_id…)").eq("id", cid).single()`:
one query joining the character row with its owning player row; the
inner join yields no data when either row is absent. -/
def findCharacterWithOwner (s : Store) (cid : String) :
    Option (CharacterRow × PlayerRow) :=
  match findCharacter s cid with
  | none => none
  | some ch =>
    match s.players.find? (fun p => p.id == ch.player_id) with
    | none => none
    | some pl => some (ch, pl)

/-! ## Request payload models — `src/api/models/player.py`. -/

/-- `PlayerUpdate`: partial player-profile patch; `none` = field not
set in the request. -/
structure PlayerUpdate where
  display_name : Option String
  avatar_url : Option String
  settings : Option PlayerSettings
deriving DecidableEq, Repr

/-- `payload.model_dump(exclude_unset=True)` is empty: no field set. -/
def PlayerUpdate.isEmpty (u : PlayerUpdate) : Bool :=
  u.display_name.isNone && u.avatar_url.isNone && u.settings.isNone

/-- Applying a `players.update(update_data)` write to one row: exactly
the set fields are overwritten. -/
def applyPlayerUpdate (u : PlayerUpdate) (p : PlayerRow) : PlayerRow :=
  { p with
    display_name := match u.display_name with
      | some v => some v
      | none => p.display_name
    avatar_url := match u.avatar_url with
      | some v => some v
      | none => p.avatar_url
    settings := match u.settings with
      | some v => some v
      | none => p.settings }

/-- `CharacterCreate`: creation payload (attributes range-validated by
the schema to 8..15). -/
structure CharacterCreate where
  name : String
  slot_number : Nat
  strength : Nat
  dexterity : Nat
  intelligence : Nat
  vitality : Nat
deriving DecidableEq, Repr

/-- `CharacterUpdate`: sparse character patch; `none` = field not set. -/
structure CharacterUpdate where
  position_x : Option Rat
  position_y : Option Rat
  position_z : Option Rat
  rotation_y : Option Rat
  current_zone : Option String
  health : Option Nat
  stamina : Option Nat
  mana : Option Nat
  experience : Option Nat
  gold : Option Nat
deriving DecidableEq, Repr

/-- `payload.model_dump(exclude_unset=True)` is empty: no field set. -/
def CharacterUpdate.isEmpty (u : CharacterUpdate) : Bool :=
  u.position_x.isNone && u.position_y.isNone && u.position_z.isNone &&
  u.rotation_y.isNone && u.current_zone.isNone && u.health.isNone &&
  u.stamina.isNone && u.mana.isNone && u.experience.isNone && u.gold.isNone

/-- Applying a `characters.update(update_data)` patch to one row:
exactly the set fields are overwritten. -/
def applyCharacterUpdate (u : CharacterUpdate) (c : CharacterRow) : CharacterRow :=
  { c with
    position_x := u.position_x.getD c.position_x
    position_y := u.position_y.getD c.position_y
    position_z := u.position_z.getD c.position_z
    rotation_y := u.rotation_y.getD c.rotation_y
    current_zone := u.current_zone.getD c.current_zone
    health := u.health.getD c.health
    stamina := u.stamina.getD c.stamina
    mana := u.mana.getD c.mana
    experience := u.experience.getD c.experience
    gold := u.gold.getD c.gold }

/-- `Position`: 3D position inside `CharacterSaveData`. -/
structure Position where
  x : Rat
  y : Rat
  z : Rat
deriving DecidableEq, Repr

/-- `CharacterSaveData`: the full gameplay-state snapshot. -/
structure CharacterSaveData where
  position : Position
  rotation_y : Rat
  current_zone : String
  health : Nat
  stamina : Nat
  mana : Nat
  is_dead : Bool
deriving DecidableEq, Repr

/-- The `save_data` dict built by `save_character`, applied to one row
(also stamps `last_played_at`). -/
def applySave (p : CharacterSaveData) (now : Nat) (c : CharacterRow) : CharacterRow :=
  { c with
    position_x := p.position.x
    position_y := p.position.y
    position_z := p.position.z
    rotation_y := p.rotation_y
    current_zone := p.current_zone
    health := p.health
    stamina := p.stamina
    mana := p.mana
    is_dead := p.is_dead
    last_played_at := now }

/-! ## Route handlers — `src/api/routes/v1/player.py`

Each handler takes the store and the already-evaluated result of the
`get_current_user_id` dependency (FastAPI resolves the dependency
before the handler body runs; an auth failure propagates unchanged and
no handler code executes).  Handlers that write return the final store
alongside the result; an exception leaves the store as it was at the
raise point. -/

/-- `PATCH /player/me` — `update_current_player`: empty patch is a
`ValidationError` before any write; else the matching player row is
updated with exactly the set fields and the merged row returned. -/
def update_current_player (store : Store) (auth : Except APIException String)
    (payload : PlayerUpdate) : Except APIException PlayerRow × Store :=
  match auth with
  | Except.error e => (Except.error e, store)
  | Except.ok user_id =>
    if payload.isEmpty then
      (Except.error (ValidationError "No fields to update" none), store)
    else
      match findPlayerByAuth store user_id with
      | none => (Except.error (NotFoundError "Player" user_id), store)
      | some p =>
        (Except.ok (applyPlayerUpdate payload p),
         { store with players := store.players.map (fun q =>
             if q.auth_id == user_id then applyPlayerUpdate payload q else q) })

/-- `POST /player/characters` — `create_character`: resolve player,
check slot uniqueness (Conflict), compute derived max resources from
the submitted attributes, insert.  `freshCharId` is the id the store
assigns to the new row; `now` its creation instant; the remaining
columns take the schema defaults of the `Character` model. -/
def create_character (store : Store) (auth : Except APIException String)
    (payload : CharacterCreate) (freshCharId : String) (now : Nat) :
    Except APIException CharacterRow × Store :=
  match auth with
  | Except.error e => (Except.error e, store)
  | Except.ok user_id =>
    match findPlayerByAuth store user_id with
    | none => (Except.error (NotFoundError "Player" user_id), store)
    | some pl =>
      let existing := store.characters.filter (fun c =>
        c.player_id == pl.id && c.slot_number == payload.slot_number)
      if existing.isEmpty = false then
        (Except.error (ConflictError
          ("Character slot " ++ toString payload.slot_number ++ " is already in use")
          (some [("slot_number", DetailVal.int payload.slot_number)])), store)
      else
        let max_health := 100 + payload.vitality * 5
        let max_stamina := 100 + payload.dexterity * 2
        let max_mana := 50 + payload.intelligence * 3
        let row : CharacterRow :=
          { id := freshCharId
            player_id := pl.id
            name := payload.name
            slot_number := payload.slot_number
            position_x := 0, position_y := 0, position_z := 0, rotation_y := 0
            current_zone := "starting_area"
            level := 1, experience := 0
            health := max_health, max_health := max_health
            stamina := max_stamina, max_stamina := max_stamina
            mana := max_mana, max_mana := max_mana
            gold := 0
            strength := payload.strength
            dexterity := payload.dexterity
            intelligence := payload.intelligence
            vitality := payload.vitality
            is_dead := false
            total_play_time_seconds := 0
            last_played_at := now }
        (Except.ok row, { store with characters := store.characters ++ [row] })

/-- `GET /player/characters/{id}` — `get_character`: combined
ownership lookup, NotFound before Forbidden, then the row (minus the
joined player data) is returned. -/
def get_character (store : Store) (auth : Except APIException String)
    (character_id : String) : Except APIException CharacterRow :=
  match auth with
  | Except.error e => Except.error e
  | Except.ok user_id =>
    match findCharacterWithOwner store character_id with
    | none => Except.error (NotFoundError "Character" character_id)
    | some (ch, pl) =>
      if pl.auth_id ≠ user_id then
        Except.error (ForbiddenError "You do not own this character")
      else
        Except.ok ch

/-- `PATCH /player/characters/{id}` — `update_character`: ownership
check first (NotFound, then Forbidden), then the empty-patch
validation, then the write of exactly the set fields. -/
def update_character (store : Store) (auth : Except APIException String)
    (character_id : String) (payload : CharacterUpdate) :
    Except APIException CharacterRow × Store :=
  match auth with
  | Except.error e => (Except.error e, store)
  | Except.ok user_id =>
    match findCharacterWithOwner store character_id with
    | none => (Except.error (NotFoundError "Character" character_id), store)
    | some (ch, pl) =>
      if pl.auth_id ≠ user_id then
        (Except.error (ForbiddenError "You do not own this character"), store)
      else if payload.isEmpty then
        (Except.error (ValidationError "No fields to update" none), store)
      else
        (Except.ok (applyCharacterUpdate payload ch),
         { store with characters := store.characters.map (fun c =>
             if c.id == character_id then applyCharacterUpdate payload c else c) })

/-- `POST /player/characters/{id}/save` — `save_character`: ownership
check, then the full snapshot write (stamping `last_played_at`). -/
def save_character (store : Store) (auth : Except APIException String)
    (character_id : String) (payload : CharacterSaveData) (now : Nat) :
    Except APIException CharacterRow × Store :=
  match auth with
  | Except.error e => (Except.error e, store)
  | Except.ok user_id =>
    match findCharacterWithOwner store character_id with
    | none => (Except.error (NotFoundError "Character" character_id), store)
    | some (ch, pl) =>
      if pl.auth_id ≠ user_id then
        (Except.error (ForbiddenError "You do not own this character"), store)
      else
        (Except.ok (applySave payload now ch),
         { store with characters := store.characters.map (fun c =>
             if c.id == character_id then applySave payload now c else c) })

/-- `DELETE /player/characters/{id}` — `delete_character`: ownership
check, then permanent deletion, no body (204). -/
def delete_character (store : Store) (auth : Except APIException String)
    (character_id : String) : Except APIException Unit × Store :=
  match auth with
  | Except.error e => (Except.error e, store)
  | Except.ok user_id =>
    match findCharacterWithOwner store character_id with
    | none => (Except.error (NotFoundError "Character" character_id), store)
    | some (_, pl) =>
      if pl.auth_id ≠ user_id then
        (Except.error (ForbiddenError "You do not own this character"), store)
      else
        (Except.ok (),
         { store with characters := store.characters.filter (fun c =>
             (c.id == character_id) = false) })

/-- The success body of `update_playtime`. -/
structure PlaytimeData where
  character_play_time : Int
  player_total_play_time : Int
deriving DecidableEq, Repr

/-- `POST /player/characters/{id}/playtime` — `update_playtime`:
combined ownership lookup that also reads both play-time counters;
adds `seconds` to the character's counter (stamping `last_played_at`)
and then to the owning player's counter.  The increment is an `Int`:
no bound or sign check is performed. -/
def update_playtime (store : Store) (auth : Except APIException String)
    (character_id : String) (seconds : Int) (now : Nat) :
    Except APIException PlaytimeData × Store :=
  match auth with
  | Except.error e => (Except.error e, store)
  | Except.ok user_id =>
    match findCharacterWithOwner store character_id with
    | none => (Except.error (NotFoundError "Character" character_id), store)
    | some (ch, pl) =>
      if pl.auth_id ≠ user_id then
        (Except.error (ForbiddenError "You do not own this character"), store)
      else
        let new_char_time := ch.total_play_time_seconds + seconds
        let store1 := { store with characters := store.characters.map (fun (c : CharacterRow) =>
          if c.id == character_id then
            { c with total_play_time_seconds := new_char_time, last_played_at := now }
          else c) }
        let new_player_time := pl.total_play_time_seconds + seconds
        let store2 := { store1 with players := store1.players.map (fun (p : PlayerRow) =>
          if p.id == ch.player_id then
            { p with total_play_time_seconds := new_player_time }
          else p) }
        (Except.ok { character_play_time := new_char_time,
                     player_total_play_time := new_player_time }, store2)

/-! ## Response envelope — `src/api/models/base.py` — and the
boundary translation — `src/api/index.py`. -/

/-- `ErrorDetail`: the error object of a failure envelope. -/
structure ErrorDetail where
  code : String
  message : String
  details : Option Details
  trace_id : String
deriving DecidableEq, Repr

/-- `ResponseMeta`: envelope metadata (timestamp modelled as an
abstract `Nat` instant). -/
structure ResponseMeta where
  timestamp : Nat
  request_id : String
  duration_ms : Rat
deriving DecidableEq, Repr

/-- `APIResponse`: the uniform `{success, data, error, meta}` envelope. -/
structure Envelope (α : Type) where
  success : Bool
  data : Option α
  error : Option ErrorDetail
  meta : ResponseMeta
deriving DecidableEq, Repr

/-- `_create_response_meta` (`player.py`, lines 36–40): `request_id or
str(uuid.uuid4())` — the fresh uuid (`fresh`) is used when the argument
is `None` or empty; `duration_ms` is hard-coded to 0.  Every success
handler calls it with no argument. -/
def create_response_meta (request_id : Option String) (fresh : String) (now : Nat) :
    ResponseMeta :=
  { timestamp := now
    request_id := match request_id with
      | some r => if r = "" then fresh else r
      | none => fresh
    duration_ms := 0 }

/-- `api_exception_handler` (`index.py`, lines 71–91): renders a
taxonomy error as status + failure envelope.  `state_request_id` is
`request.state.request_id` when the middleware set it; `fresh1` /
`fresh2` are the two independent `uuid.uuid4()` fallbacks of the two
`getattr` calls. -/
def api_exception_handler (α : Type) (state_request_id : Option String)
    (fresh1 fresh2 : String) (exc : APIException) (now : Nat) :
    Nat × Envelope α :=
  (exc.status_code,
   { success := false
     data := none
     error := some
       { code := exc.error_code
         message := exc.message
         details := exc.details
         trace_id := match state_request_id with
           | some r => r
           | none => fresh1 }
     meta := { timestamp := now
               request_id := match state_request_id with
                 | some r => r
                 | none => fresh2
               duration_ms := 0 } })

/-- A rendered HTTP response: status, envelope body, and the headers
the middleware attaches. -/
structure HttpResponse (α : Type) where
  status : Nat
  body : Envelope α
  headers : List (String × String)
deriving Repr

/-- A route endpoint seen from the middleware: given
`request.state.request_id` it yields status and envelope — the success
branch builds the envelope in the handler (with a meta from
`_create_response_meta()`), the error branch goes through
`api_exception_handler`. -/
def route_result (α : Type) (handler : Except APIException α) (okStatus : Nat)
    (freshHandler : String) (now : Nat) (state_request_id : String) :
    Nat × Envelope α :=
  match handler with
  | Except.ok a =>
    (okStatus,
     { success := true
       data := some a
       error := none
       meta := create_response_meta none freshHandler now })
  | Except.error e =>
    api_exception_handler α (some state_request_id) freshHandler freshHandler e now

/-- `RequestLoggingMiddleware.dispatch` (`middleware.py`, lines
20–45): `request_id = request.headers.get("X-Request-ID",
str(uuid.uuid4()))` — the inbound header when present (even empty),
else the fresh uuid `freshMw`; it is stored on `request.state`, the
inner chain runs, and the `X-Request-ID` / `X-Response-Time` response
headers are attached. -/
def dispatch (α : Type) (inbound_request_id : Option String) (freshMw : String)
    (inner : String → Nat × Envelope α) (duration_ms : Rat) : HttpResponse α :=
  let request_id := match inbound_request_id with
    | some h => h
    | none => freshMw
  let res := inner request_id
  { status := res.1
    body := res.2
    headers := [("X-Request-ID", request_id),
                ("X-Response-Time", toString duration_ms ++ "ms")] }

/-- The full pipeline for `GET /player/characters/{id}`: middleware
around the `get_character` handler (success status 200). -/
def GET_character_endpoint (store : Store) (auth : Except APIException String)
    (character_id : String) (inbound_request_id : Option String)
    (freshMw freshHandler : String) (now : Nat) (duration_ms : Rat) :
    HttpResponse CharacterRow :=
  dispatch CharacterRow inbound_request_id freshMw
    (route_result CharacterRow (get_character store auth character_id) 200 freshHandler now)
    duration_ms

/-! ## Health endpoints — `src/api/routes/health.py`. -/

/-- `ReadinessStatus`: the readiness response; `checks` maps each
check name to its reported status string. -/
structure ReadinessStatus where
  ready : Bool
  checks : List (String × String)
deriving DecidableEq, Repr

/-- `readiness_check` (`health.py`, lines 45–61): records whether the
two Supabase settings are non-empty (Python truthiness of `str`), but
`all_healthy` is never cleared — a missing configuration is "not a
failure". -/
def readiness_check (supabase_url supabase_anon_key : String) : ReadinessStatus :=
  let all_healthy := true
  let checks :=
    if supabase_url ≠ "" ∧ supabase_anon_key ≠ "" then
      [("supabase_config", "ok")]
    else
      [("supabase_config", "not_configured")]
  { ready := all_healthy, checks := checks }

/-- `liveness_check` (`health.py`, lines 64–69). -/
def liveness_check : Bool := true

/-! ## Concrete fixtures used to instantiate the theorems. -/

/-- A stored player used by the concrete instances. -/
def player1 : PlayerRow :=
  { id := "p1", auth_id := "auth-alice", username := "alice",
    display_name := none, avatar_url := none, settings := none,
    total_play_time_seconds := 0, last_login := none, login_count := 0 }

/-- A stored character owned by `player1`, in slot 1. -/
def char1 : CharacterRow :=
  { id := "c1", player_id := "p1", name := "Hero", slot_number := 1,
    position_x := 0, position_y := 0, position_z := 0, rotation_y := 0,
    current_zone := "starting_area", level := 1, experience := 0,
    health := 150, max_health := 150, stamina := 120, max_stamina := 120,
    mana := 80, max_mana := 80, gold := 0, strength := 10, dexterity := 10,
    intelligence := 10, vitality := 10, is_dead := false,
    total_play_time_seconds := 0, last_played_at := 0 }

/-- A one-player, one-character store. -/
def store1 : Store := { players := [player1], characters := [char1] }

/-- A character patch with no field set. -/
def emptyCharacterUpdate : CharacterUpdate :=
  { position_x := none, position_y := none, position_z := none,
    rotation_y := none, current_zone := none, health := none,
    stamina := none, mana := none, experience := none, gold := none }

/-- A player patch with no field set. -/
def emptyPlayerUpdate : PlayerUpdate :=
  { display_name := none, avatar_url := none, settings := none }

/-- A concrete full-save snapshot. -/
def saveData1 : CharacterSaveData :=
  { position := { x := 1, y := 2, z := 3 }, rotation_y := 4,
    current_zone := "forest", health := 10, stamina := 20, mana := 30,
    is_dead := true }

/-- The row the all-15 creation on `store1` inserts (slot 2, fresh id
`"c2"`, instant 7). -/
def char2created : CharacterRow :=
  { id := "c2", player_id := "p1", name := "Mage", slot_number := 2,
    position_x := 0, position_y := 0, position_z := 0, rotation_y := 0,
    current_zone := "starting_area", level := 1, experience := 0,
    health := 175, max_health := 175, stamina := 130, max_stamina := 130,
    mana := 95, max_mana := 95, gold := 0, strength := 15, dexterity := 15,
    intelligence := 15, vitality := 15, is_dead := false,
    total_play_time_seconds := 0, last_played_at := 7 }

/-! ## Claims -/

/-- C2: for every character-creation request with attributes in 8..15
reaching the insert, the created character has
`max_health = 100 + vitality*5`, `max_stamina = 100 + dexterity*2`,
`max_mana = 50 + intelligence*3`, and current health / stamina / mana
equal to those maxima; in particular all-15 attributes yield
175 / 130 / 95. -/
theorem C2_create_character_stats :
    (∀ (store : Store) (uid : String) (payload : CharacterCreate)
       (freshCharId : String) (now : Nat) (pl : PlayerRow),
       8 ≤ payload.strength → payload.strength ≤ 15 →
       8 ≤ payload.dexterity → payload.dexterity ≤ 15 →
       8 ≤ payload.intelligence → payload.intelligence ≤ 15 →
       8 ≤ payload.vitality → payload.vitality ≤ 15 →
       findPlayerByAuth store uid = some pl →
       (store.characters.filter (fun c =>
         c.player_id == pl.id && c.slot_number == payload.slot_number)).isEmpty = true →
       ∃ ch : CharacterRow,
         (create_character store (Except.ok uid) payload freshCharId now).1
           = Except.ok ch ∧
         ch.max_health = 100 + payload.vitality * 5 ∧
         ch.max_stamina = 100 + payload.dexterity * 2 ∧
         ch.max_mana = 50 + payload.intelligence * 3 ∧
         ch.health = ch.max_health ∧
         ch.stamina = ch.max_stamina ∧
         ch.mana = ch.max_mana) ∧
    (∃ ch : CharacterRow,
       (create_character store1 (Except.ok "auth-alice")
         { name := "Mage", slot_number := 2, strength := 15, dexterity := 15,
           intelligence := 15, vitality := 15 } "c2" 7).1 = Except.ok ch ∧
       ch.max_health = 175 ∧ ch.max_stamina = 130 ∧ ch.max_mana = 95 ∧
       ch.health = 175 ∧ ch.stamina = 130 ∧ ch.mana = 95) := by
  constructor
  · intro store uid payload freshCharId now pl _ _ _ _ _ _ _ _ hfind hslot
    simp [create_character, hfind, hslot]
  · exact ⟨char2created, rfl, rfl, rfl, rfl, rfl, rfl, rfl⟩

/-- C1 counterexample: a successful `GET /player/characters/{id}`
carrying inbound `X-Request-ID: inbound-id` produces a body whose
`meta.request_id` is the handler's freshly generated uuid, not the
inbound header value — the success handlers call
`_create_response_meta()` with no argument. -/
theorem C1_success_meta_ignores_inbound_header :
    (GET_character_endpoint store1 (Except.ok "auth-alice") "c1"
      (some "inbound-id") "mw-fresh" "handler-fresh" 5 0).body.success = true ∧
    (GET_character_endpoint store1 (Except.ok "auth-alice") "c1"
      (some "inbound-id") "mw-fresh" "handler-fresh" 5 0).body.meta.request_id
      ≠ "inbound-id" := by
  exact ⟨rfl, by decide⟩

/-- C1 amended: with a non-empty inbound `X-Request-ID` header, the
`X-Request-ID` response header echoes it on every response, and a
failure response's `meta.request_id` and `error.trace_id` equal it;
but a success response's body `meta.request_id` is the handler's
freshly generated id (non-empty since `uuid4` is), not the inbound
value. -/
theorem C1_request_id_amended
    (store : Store) (auth : Except APIException String)
    (cid h freshMw freshH : String) (now : Nat) (dur : Rat)
    (resp : HttpResponse CharacterRow)
    (hne : h ≠ "") (hfresh : freshH ≠ "")
    (hresp : resp = GET_character_endpoint store auth cid (some h) freshMw freshH now dur) :
    resp.headers.head? = some ("X-Request-ID", h) ∧
    (resp.body.success = false →
      resp.body.meta.request_id = h ∧ resp.body.meta.request_id ≠ "" ∧
      ∀ ed : ErrorDetail, resp.body.error = some ed → ed.trace_id = h) ∧
    (resp.body.success = true →
      resp.body.meta.request_id = freshH ∧ resp.body.meta.request_id ≠ "") := by
  subst hresp
  cases hget : get_character store auth cid with
  | ok ch =>
    refine ⟨rfl, ?_, ?_⟩ <;>
      simp [GET_character_endpoint, dispatch, route_result, hget,
            create_response_meta, api_exception_handler, hfresh]
  | error e =>
    refine ⟨rfl, ?_, ?_⟩ <;>
      simp [GET_character_endpoint, dispatch, route_result, hget,
            create_response_meta, api_exception_handler, hne]

/-- C1 amended witness: the amended statement applied to a concrete
success (`c1`) and a concrete failure (`missing`) on `store1`. -/
theorem C1_request_id_amended_witness :
    ("req-7" : String) ≠ "" ∧ ("fh" : String) ≠ "" ∧
    (GET_character_endpoint store1 (Except.ok "auth-alice") "c1" (some "req-7")
      "mw" "fh" 0 0).headers.head? = some ("X-Request-ID", "req-7") ∧
    (GET_character_endpoint store1 (Except.ok "auth-alice") "c1" (some "req-7")
      "mw" "fh" 0 0).body.meta.request_id = "fh" ∧
    (GET_character_endpoint store1 (Except.ok "auth-alice") "missing" (some "req-7")
      "mw" "fh" 0 0).body.meta.request_id = "req-7" := by
  have hok := C1_request_id_amended store1 (Except.ok "auth-alice") "c1" "req-7"
    "mw" "fh" 0 0 _ (by decide) (by decide) rfl
  have hmiss := C1_request_id_amended store1 (Except.ok "auth-alice") "missing" "req-7"
    "mw" "fh" 0 0 _ (by decide) (by decide) rfl
  exact ⟨by decide, by decide, hok.1, (hok.2.2 (by decide)).1, (hmiss.2.1 (by decide)).1⟩

/-- C2 witness: the universal part applied to the concrete all-15
creation on `store1`. -/
theorem C2_create_character_stats_witness :
    ∃ ch : CharacterRow,
      (create_character store1 (Except.ok "auth-alice")
        { name := "Mage", slot_number := 2, strength := 15, dexterity := 15,
          intelligence := 15, vitality := 15 } "c2" 7).1 = Except.ok ch ∧
      ch.max_health = 100 + 15 * 5 ∧
      ch.max_stamina = 100 + 15 * 2 ∧
      ch.max_mana = 50 + 15 * 3 ∧
      ch.health = ch.max_health ∧
      ch.stamina = ch.max_stamina ∧
      ch.mana = ch.max_mana :=
  C2_create_character_stats.1 store1 "auth-alice"
    { name := "Mage", slot_number := 2, strength := 15, dexterity := 15,
      intelligence := 15, vitality := 15 } "c2" 7 player1
    (by decide) (by decide) (by decide) (by decide) (by decide) (by decide)
    (by decide) (by decide) (by decide) (by decide)

/-- C3: every character-addressing handler (get, update, save, delete,
playtime) uses the combined character-with-owner lookup; an absent
character means the lookup is empty and yields NotFound (404); a
present character whose owner differs from the caller yields Forbidden
(403) for any payload — in particular an invalid (empty) patch — and
neither path writes the store; NotFound is checked before Forbidden. -/
theorem C3_ownership_check
    (store : Store) (uid cid : String) (upd : CharacterUpdate)
    (sv : CharacterSaveData) (secs : Int) (now now2 : Nat) :
    (findCharacter store cid = none → findCharacterWithOwner store cid = none) ∧
    (findCharacterWithOwner store cid = none →
      get_character store (Except.ok uid) cid
        = Except.error (NotFoundError "Character" cid) ∧
      update_character store (Except.ok uid) cid upd
        = (Except.error (NotFoundError "Character" cid), store) ∧
      save_character store (Except.ok uid) cid sv now
        = (Except.error (NotFoundError "Character" cid), store) ∧
      delete_character store (Except.ok uid) cid
        = (Except.error (NotFoundError "Character" cid), store) ∧
      update_playtime store (Except.ok uid) cid secs now2
        = (Except.error (NotFoundError "Character" cid), store)) ∧
    (∀ ch pl, findCharacterWithOwner store cid = some (ch, pl) → pl.auth_id ≠ uid →
      get_character store (Except.ok uid) cid
        = Except.error (ForbiddenError "You do not own this character") ∧
      update_character store (Except.ok uid) cid upd
        = (Except.error (ForbiddenError "You do not own this character"), store) ∧
      save_character store (Except.ok uid) cid sv now
        = (Except.error (ForbiddenError "You do not own this character"), store) ∧
      delete_character store (Except.ok uid) cid
        = (Except.error (ForbiddenError "You do not own this character"), store) ∧
      update_playtime store (Except.ok uid) cid secs now2
        = (Except.error (ForbiddenError "You do not own this character"), store)) ∧
    (NotFoundError "Character" cid).status_code = 404 ∧
    (ForbiddenError "You do not own this character").status_code = 403 := by
  refine ⟨?_, ?_, ?_, rfl, rfl⟩
  · intro hf
    simp [findCharacterWithOwner, hf]
  · intro hf
    simp [get_character, update_character, save_character, delete_character,
          update_playtime, hf]
  · intro ch pl hf hne
    simp [get_character, update_character, save_character, delete_character,
          update_playtime, hf, hne]

/-- C3 witness: on `store1`, caller `auth-bob` (not the owner) gets
NotFound for the absent id `nope` and Forbidden for the existing `c1`,
from all five handlers, with the store unchanged. -/
theorem C3_ownership_check_witness :
    get_character store1 (Except.ok "auth-bob") "nope"
      = Except.error (NotFoundError "Character" "nope") ∧
    update_character store1 (Except.ok "auth-bob") "nope" emptyCharacterUpdate
      = (Except.error (NotFoundError "Character" "nope"), store1) ∧
    save_character store1 (Except.ok "auth-bob") "nope" saveData1 1
      = (Except.error (NotFoundError "Character" "nope"), store1) ∧
    delete_character store1 (Except.ok "auth-bob") "nope"
      = (Except.error (NotFoundError "Character" "nope"), store1) ∧
    update_playtime store1 (Except.ok "auth-bob") "nope" 5 2
      = (Except.error (NotFoundError "Character" "nope"), store1) ∧
    get_character store1 (Except.ok "auth-bob") "c1"
      = Except.error (ForbiddenError "You do not own this character") ∧
    update_character store1 (Except.ok "auth-bob") "c1" emptyCharacterUpdate
      = (Except.error (ForbiddenError "You do not own this character"), store1) ∧
    save_character store1 (Except.ok "auth-bob") "c1" saveData1 1
      = (Except.error (ForbiddenError "You do not own this character"), store1) ∧
    delete_character store1 (Except.ok "auth-bob") "c1"
      = (Except.error (ForbiddenError "You do not own this character"), store1) ∧
    update_playtime store1 (Except.ok "auth-bob") "c1" 5 2
      = (Except.error (ForbiddenError "You do not own this character"), store1) := by
  have hnf := (C3_ownership_check store1 "auth-bob" "nope" emptyCharacterUpdate
    saveData1 5 1 2).2.1 (by decide)
  have hforb := (C3_ownership_check store1 "auth-bob" "c1" emptyCharacterUpdate
    saveData1 5 1 2).2.2.1 char1 player1 (by decide) (by decide)
  exact ⟨hnf.1, hnf.2.1, hnf.2.2.1, hnf.2.2.2.1, hnf.2.2.2.2,
         hforb.1, hforb.2.1, hforb.2.2.1, hforb.2.2.2.1, hforb.2.2.2.2⟩

/-- C4: caller resolution raises only Unauthorized (401): a missing or
empty header and a non-bearer header are rejected without consulting
the identity service (the oracle `f` is arbitrary and unused on those
paths), every possible error result — whatever the identity call did —
carries status 401 and code UNAUTHORIZED, never any other kind, and
with the header missing every protected route yields that Unauthorized
error with the store untouched. -/
theorem C4_auth_only_unauthorized :
    (∀ f : AuthOracle, get_current_user_id none f
       = Except.error (UnauthorizedError "Missing authorization header")) ∧
    (∀ f : AuthOracle, get_current_user_id (some "") f
       = Except.error (UnauthorizedError "Missing authorization header")) ∧
    (∀ (auth : String) (f : AuthOracle), auth ≠ "" →
       startsWithB auth "Bearer " = false →
       get_current_user_id (some auth) f
         = Except.error (UnauthorizedError "Invalid authorization format")) ∧
    (∀ (a : Option String) (f : AuthOracle) (e : APIException),
       get_current_user_id a f = Except.error e →
       e.status_code = 401 ∧ e.error_code = "UNAUTHORIZED") ∧
    (∀ (store : Store) (f : AuthOracle) (cid fid : String)
       (pu : PlayerUpdate) (cu : CharacterUpdate) (cc : CharacterCreate)
       (sv : CharacterSaveData) (now : Nat) (secs : Int),
       update_current_player store (get_current_user_id none f) pu
         = (Except.error (UnauthorizedError "Missing authorization header"), store) ∧
       create_character store (get_current_user_id none f) cc fid now
         = (Except.error (UnauthorizedError "Missing authorization header"), store) ∧
       get_character store (get_current_user_id none f) cid
         = Except.error (UnauthorizedError "Missing authorization header") ∧
       update_character store (get_current_user_id none f) cid cu
         = (Except.error (UnauthorizedError "Missing authorization header"), store) ∧
       save_character store (get_current_user_id none f) cid sv now
         = (Except.error (UnauthorizedError "Missing authorization header"), store) ∧
       delete_character store (get_current_user_id none f) cid
         = (Except.error (UnauthorizedError "Missing authorization header"), store) ∧
       update_playtime store (get_current_user_id none f) cid secs now
         = (Except.error (UnauthorizedError "Missing authorization header"), store)) := by
  refine ⟨fun f => rfl, fun f => rfl, ?_, ?_,
    fun _ _ _ _ _ _ _ _ _ _ => ⟨rfl, rfl, rfl, rfl, rfl, rfl, rfl⟩⟩
  · intro auth f hne hsw
    simp [get_current_user_id, hne, hsw]
  · intro a f e h
    cases a with
    | none =>
      simp [get_current_user_id] at h
      subst h
      exact ⟨rfl, rfl⟩
    | some auth =>
      by_cases h1 : auth = ""
      · simp [get_current_user_id, h1] at h
        subst h
        exact ⟨rfl, rfl⟩
      · by_cases h2 : startsWithB auth "Bearer " = false
        · simp [get_current_user_id, h1, h2] at h
          subst h
          exact ⟨rfl, rfl⟩
        · cases h3 : f (removeAll auth "Bearer ") with
          | error e2 =>
            simp [get_current_user_id, h1, h2, h3] at h
            subst h
            exact ⟨rfl, rfl⟩
          | ok u =>
            cases u with
            | none =>
              simp [get_current_user_id, h1, h2, h3] at h
              subst h
              exact ⟨rfl, rfl⟩
            | some uid =>
              simp [get_current_user_id, h1, h2, h3] at h

/-- C4 witness: a non-bearer header is rejected as Unauthorized
without the oracle, and a failing identity call yields a 401
UNAUTHORIZED error. -/
theorem C4_auth_only_unauthorized_witness :
    (get_current_user_id (some "Basic xyz") (fun t => Except.ok (some t))
       = Except.error (UnauthorizedError "Invalid authorization format")) ∧
    ((UnauthorizedError ("Authentication failed: " ++ "boom")).status_code = 401 ∧
     (UnauthorizedError ("Authentication failed: " ++ "boom")).error_code
       = "UNAUTHORIZED") := by
  refine ⟨?_, ?_⟩
  · exact C4_auth_only_unauthorized.2.2.1 "Basic xyz" (fun t => Except.ok (some t))
      (by decide) (by decide)
  · exact C4_auth_only_unauthorized.2.2.2.1 (some "Bearer tok")
      (fun _ => Except.error "boom")
      (UnauthorizedError ("Authentication failed: " ++ "boom")) rfl

/-- C10: for a header with the bearer scheme, the token handed to the
identity service is the header with every occurrence of `"Bearer "`
deleted (`str.replace`), not only the leading one: on
`"Bearer abcBearer def"` the verified token is `"abcdef"`, which
differs from the mere prefix strip `"abcBearer def"`. -/
theorem C10_token_replace_all :
    (∀ auth : String, startsWithB auth "Bearer " = true →
       get_current_user_id (some auth) (fun t => Except.ok (some t))
         = Except.ok (removeAll auth "Bearer ")) ∧
    removeAll "Bearer abcBearer def" "Bearer " = "abcdef" ∧
    dropOnce "Bearer abcBearer def" "Bearer " = "abcBearer def" ∧
    removeAll "Bearer abcBearer def" "Bearer "
      ≠ dropOnce "Bearer abcBearer def" "Bearer " := by
  refine ⟨?_, by decide, by decide, by decide⟩
  intro auth hsw
  have hne : ¬ auth = "" := by
    intro h
    rw [h] at hsw
    exact absurd hsw (by decide)
  simp [get_current_user_id, hne, hsw]

/-- C10 witness: the echoing oracle receives `"abcdef"` for the header
`"Bearer abcBearer def"`. -/
theorem C10_token_replace_all_witness :
    get_current_user_id (some "Bearer abcBearer def") (fun t => Except.ok (some t))
      = Except.ok "abcdef" :=
  C10_token_replace_all.1 "Bearer abcBearer def" (by decide)

/-- C5: a character creation whose `(player_id, slot_number)` pair is
already occupied raises Conflict (409) and performs no insert — the
store is returned unchanged. -/
theorem C5_slot_conflict
    (store : Store) (uid : String) (payload : CharacterCreate)
    (freshCharId : String) (now : Nat) (pl : PlayerRow)
    (hfind : findPlayerByAuth store uid = some pl)
    (hdup : (store.characters.filter (fun c =>
      c.player_id == pl.id && c.slot_number == payload.slot_number)).isEmpty = false) :
    create_character store (Except.ok uid) payload freshCharId now
      = (Except.error (ConflictError
          ("Character slot " ++ toString payload.slot_number ++ " is already in use")
          (some [("slot_number", DetailVal.int payload.slot_number)])), store) ∧
    (ConflictError
      ("Character slot " ++ toString payload.slot_number ++ " is already in use")
      (some [("slot_number", DetailVal.int payload.slot_number)])).status_code = 409 := by
  refine ⟨?_, rfl⟩
  simp [create_character, hfind, hdup]

/-- C5 witness: creating into the occupied slot 1 of `store1` is a
Conflict and leaves the store unchanged. -/
theorem C5_slot_conflict_witness :
    create_character store1 (Except.ok "auth-alice")
      { name := "Dup", slot_number := 1, strength := 10, dexterity := 10,
        intelligence := 10, vitality := 10 } "c9" 3
      = (Except.error (ConflictError "Character slot 1 is already in use"
          (some [("slot_number", DetailVal.int 1)])), store1) ∧
    (ConflictError "Character slot 1 is already in use"
      (some [("slot_number", DetailVal.int 1)])).status_code = 409 :=
  C5_slot_conflict store1 "auth-alice"
    { name := "Dup", slot_number := 1, strength := 10, dexterity := 10,
      intelligence := 10, vitality := 10 } "c9" 3 player1
    (by decide) (by decide)

/-- C8: every taxonomy error rendered by `api_exception_handler`
becomes a failure envelope with `success = false`, `data = null`,
`error = {code, message, details, trace_id}`, HTTP status equal to the
status the error kind declares, and `meta.duration_ms` hard-coded to 0;
each error kind carries its fixed code/status pair (Conflict gives
CONFLICT / 409). -/
theorem C8_error_envelope :
    (∀ (α : Type) (rid f1 f2 : String) (exc : APIException) (now : Nat),
       (api_exception_handler α (some rid) f1 f2 exc now).1 = exc.status_code ∧
       (api_exception_handler α (some rid) f1 f2 exc now).2.success = false ∧
       (api_exception_handler α (some rid) f1 f2 exc now).2.data = none ∧
       (api_exception_handler α (some rid) f1 f2 exc now).2.error
         = some { code := exc.error_code, message := exc.message,
                  details := exc.details, trace_id := rid } ∧
       (api_exception_handler α (some rid) f1 f2 exc now).2.meta.duration_ms = 0) ∧
    (∀ m d, (ConflictError m d).error_code = "CONFLICT"
          ∧ (ConflictError m d).status_code = 409) ∧
    (∀ m d, (ValidationError m d).error_code = "VALIDATION_ERROR"
          ∧ (ValidationError m d).status_code = 422) ∧
    (∀ r i, (NotFoundError r i).error_code = "NOT_FOUND"
          ∧ (NotFoundError r i).status_code = 404) ∧
    (∀ m, (UnauthorizedError m).error_code = "UNAUTHORIZED"
        ∧ (UnauthorizedError m).status_code = 401) ∧
    (∀ m, (ForbiddenError m).error_code = "FORBIDDEN"
        ∧ (ForbiddenError m).status_code = 403) ∧
    (∀ ra, (RateLimitError ra).error_code = "RATE_LIMIT_EXCEEDED"
         ∧ (RateLimitError ra).status_code = 429) :=
  ⟨fun _ _ _ _ _ _ => ⟨rfl, rfl, rfl, rfl, rfl⟩,
   fun _ _ => ⟨rfl, rfl⟩, fun _ _ => ⟨rfl, rfl⟩, fun _ _ => ⟨rfl, rfl⟩,
   fun _ => ⟨rfl, rfl⟩, fun _ => ⟨rfl, rfl⟩, fun _ => ⟨rfl, rfl⟩⟩

/-- C9: the readiness endpoint reports `ready = true` for every
configuration; an absent (empty) store URL or anon key only records
`not_configured` in the checks map. -/
theorem C9_readiness_always_ready :
    (∀ url key : String, (readiness_check url key).ready = true) ∧
    (∀ url key : String, url = "" ∨ key = "" →
       (readiness_check url key).checks = [("supabase_config", "not_configured")]) ∧
    (∀ url key : String, url ≠ "" → key ≠ "" →
       (readiness_check url key).checks = [("supabase_config", "ok")]) := by
  refine ⟨fun url key => rfl, ?_, ?_⟩
  · intro url key h
    rcases h with h | h <;> simp [readiness_check, h]
  · intro url key h1 h2
    simp [readiness_check, h1, h2]

/-- C9 witness: unconfigured and configured concrete settings. -/
theorem C9_readiness_always_ready_witness :
    (readiness_check "" "").ready = true ∧
    (readiness_check "" "key").checks = [("supabase_config", "not_configured")] ∧
    (readiness_check "http://x" "key").checks = [("supabase_config", "ok")] :=
  ⟨C9_readiness_always_ready.1 "" "",
   C9_readiness_always_ready.2.1 "" "key" (Or.inl rfl),
   C9_readiness_always_ready.2.2 "http://x" "key" (by decide) (by decide)⟩

/-- A player patch setting only `display_name`. -/
def pu1 : PlayerUpdate :=
  { display_name := some "Neo", avatar_url := none, settings := none }

/-- C6: a partial update whose payload sets no fields raises
Validation (422) with no store write, for the player PATCH and — once
ownership is resolved — the character PATCH; a payload with at least
one set field persists exactly the set fields (unset columns and
non-patchable columns keep their stored values) and returns the merged
resource. -/
theorem C6_empty_patch_validation
    (store : Store) (uid cid : String) (pu : PlayerUpdate) (cu : CharacterUpdate) :
    (pu.isEmpty = true →
       update_current_player store (Except.ok uid) pu
         = (Except.error (ValidationError "No fields to update" none), store)) ∧
    (∀ ch pl, cu.isEmpty = true →
       findCharacterWithOwner store cid = some (ch, pl) → pl.auth_id = uid →
       update_character store (Except.ok uid) cid cu
         = (Except.error (ValidationError "No fields to update" none), store)) ∧
    (ValidationError "No fields to update" none).status_code = 422 ∧
    (∀ p, pu.isEmpty = false → findPlayerByAuth store uid = some p →
       update_current_player store (Except.ok uid) pu
         = (Except.ok (applyPlayerUpdate pu p),
            { store with players := store.players.map (fun q =>
                if q.auth_id == uid then applyPlayerUpdate pu q else q) })) ∧
    (∀ ch pl, cu.isEmpty = false →
       findCharacterWithOwner store cid = some (ch, pl) → pl.auth_id = uid →
       update_character store (Except.ok uid) cid cu
         = (Except.ok (applyCharacterUpdate cu ch),
            { store with characters := store.characters.map (fun c =>
                if c.id == cid then applyCharacterUpdate cu c else c) })) ∧
    (∀ p : PlayerRow,
       (applyPlayerUpdate pu p).display_name
         = (match pu.display_name with
            | some v => some v
            | none => p.display_name) ∧
       (applyPlayerUpdate pu p).avatar_url
         = (match pu.avatar_url with
            | some v => some v
            | none => p.avatar_url) ∧
       (applyPlayerUpdate pu p).settings
         = (match pu.settings with
            | some v => some v
            | none => p.settings) ∧
       (applyPlayerUpdate pu p).id = p.id ∧
       (applyPlayerUpdate pu p).auth_id = p.auth_id ∧
       (applyPlayerUpdate pu p).username = p.username ∧
       (applyPlayerUpdate pu p).total_play_time_seconds = p.total_play_time_seconds ∧
       (applyPlayerUpdate pu p).last_login = p.last_login ∧
       (applyPlayerUpdate pu p).login_count = p.login_count) ∧
    (∀ c : CharacterRow,
       (applyCharacterUpdate cu c).position_x = cu.position_x.getD c.position_x ∧
       (applyCharacterUpdate cu c).position_y = cu.position_y.getD c.position_y ∧
       (applyCharacterUpdate cu c).position_z = cu.position_z.getD c.position_z ∧
       (applyCharacterUpdate cu c).rotation_y = cu.rotation_y.getD c.rotation_y ∧
       (applyCharacterUpdate cu c).current_zone = cu.current_zone.getD c.current_zone ∧
       (applyCharacterUpdate cu c).health = cu.health.getD c.health ∧
       (applyCharacterUpdate cu c).stamina = cu.stamina.getD c.stamina ∧
       (applyCharacterUpdate cu c).mana = cu.mana.getD c.mana ∧
       (applyCharacterUpdate cu c).experience = cu.experience.getD c.experience ∧
       (applyCharacterUpdate cu c).gold = cu.gold.getD c.gold ∧
       (applyCharacterUpdate cu c).id = c.id ∧
       (applyCharacterUpdate cu c).player_id = c.player_id ∧
       (applyCharacterUpdate cu c).name = c.name ∧
       (applyCharacterUpdate cu c).slot_number = c.slot_number ∧
       (applyCharacterUpdate cu c).level = c.level ∧
       (applyCharacterUpdate cu c).max_health = c.max_health ∧
       (applyCharacterUpdate cu c).max_stamina = c.max_stamina ∧
       (applyCharacterUpdate cu c).max_mana = c.max_mana ∧
       (applyCharacterUpdate cu c).strength = c.strength ∧
       (applyCharacterUpdate cu c).dexterity = c.dexterity ∧
       (applyCharacterUpdate cu c).intelligence = c.intelligence ∧
       (applyCharacterUpdate cu c).vitality = c.vitality ∧
       (applyCharacterUpdate cu c).is_dead = c.is_dead ∧
       (applyCharacterUpdate cu c).total_play_time_seconds
         = c.total_play_time_seconds ∧
       (applyCharacterUpdate cu c).last_played_at = c.last_played_at) := by
  refine ⟨?_, ?_, rfl, ?_, ?_, ?_, ?_⟩
  · intro he
    simp [update_current_player, he]
  · intro ch pl he hf hown
    simp [update_character, hf, hown, he]
  · intro p hne hfind
    simp [update_current_player, hne, hfind]
  · intro ch pl hne hf hown
    simp [update_character, hf, hown, hne]
  · intro p
    exact ⟨rfl, rfl, rfl, rfl, rfl, rfl, rfl, rfl, rfl⟩
  · intro c
    exact ⟨rfl, rfl, rfl, rfl, rfl, rfl, rfl, rfl, rfl, rfl, rfl, rfl, rfl,
           rfl, rfl, rfl, rfl, rfl, rfl, rfl, rfl, rfl, rfl, rfl, rfl⟩

/-- C6 witness: on `store1`, empty patches yield the Validation error
with the store unchanged, while the `display_name`-only patch `pu1`
returns the merged player with the new name and untouched avatar. -/
theorem C6_empty_patch_validation_witness :
    update_current_player store1 (Except.ok "auth-alice") emptyPlayerUpdate
      = (Except.error (ValidationError "No fields to update" none), store1) ∧
    update_character store1 (Except.ok "auth-alice") "c1" emptyCharacterUpdate
      = (Except.error (ValidationError "No fields to update" none), store1) ∧
    (applyPlayerUpdate pu1 player1).display_name = some "Neo" ∧
    (applyPlayerUpdate pu1 player1).avatar_url = player1.avatar_url ∧
    (update_current_player store1 (Except.ok "auth-alice") pu1).1
      = Except.ok (applyPlayerUpdate pu1 player1) := by
  have H := C6_empty_patch_validation store1 "auth-alice" "c1"
    emptyPlayerUpdate emptyCharacterUpdate
  have H2 := C6_empty_patch_validation store1 "auth-alice" "c1"
    pu1 emptyCharacterUpdate
  refine ⟨H.1 (by decide),
          H.2.1 char1 player1 (by decide) (by decide) (by decide),
          (H2.2.2.2.2.2.1 player1).1, (H2.2.2.2.2.2.1 player1).2.1, ?_⟩
  exact congrArg Prod.fst (H2.2.2.2.1 player1 (by decide) (by decide))

/-- The character play-time counter a store holds for `cid`. -/
def charPlaytime (s : Store) (cid : String) : Option Int :=
  (findCharacter s cid).map (fun c => c.total_play_time_seconds)

/-- The `last_played_at` stamp a store holds for `cid`. -/
def charLastPlayed (s : Store) (cid : String) : Option Nat :=
  (findCharacter s cid).map (fun c => c.last_played_at)

/-- The player play-time counter a store holds for player id `pid`. -/
def playerPlaytime (s : Store) (pid : String) : Option Int :=
  (s.players.find? (fun p => p.id == pid)).map
    (fun p => p.total_play_time_seconds)

/-- `store1` after playtime calls of 30 s (instant 100) and 45 s
(instant 200) on `c1`. -/
def playRun2 : Store :=
  (update_playtime
    (update_playtime store1 (Except.ok "auth-alice") "c1" 30 100).2
    (Except.ok "auth-alice") "c1" 45 200).2

/-- `playRun2` after replaying the same 30 s and 45 s calls. -/
def playRun4 : Store :=
  (update_playtime
    (update_playtime playRun2 (Except.ok "auth-alice") "c1" 30 300).2
    (Except.ok "auth-alice") "c1" 45 400).2

/-- C7: `update_playtime` adds the submitted increment to the
character's and the owning player's cumulative counters and stamps the
character's `last_played_at`; from zero, calls of 30 s and 45 s record
75 s against both rows, and replaying both calls records 150 s — the
operation is not idempotent. -/
theorem C7_update_playtime :
    (∀ (store : Store) (uid cid : String) (secs : Int) (now : Nat)
       (ch : CharacterRow) (pl : PlayerRow),
       findCharacterWithOwner store cid = some (ch, pl) → pl.auth_id = uid →
       update_playtime store (Except.ok uid) cid secs now
         = (Except.ok
             { character_play_time := ch.total_play_time_seconds + secs,
               player_total_play_time := pl.total_play_time_seconds + secs },
            { players := store.players.map (fun p =>
                if p.id == ch.player_id then
                  { p with total_play_time_seconds := pl.total_play_time_seconds + secs }
                else p),
              characters := store.characters.map (fun c =>
                if c.id == cid then
                  { c with total_play_time_seconds := ch.total_play_time_seconds + secs,
                           last_played_at := now }
                else c) })) ∧
    charPlaytime playRun2 "c1" = some 75 ∧
    playerPlaytime playRun2 "p1" = some 75 ∧
    charLastPlayed playRun2 "c1" = some 200 ∧
    charPlaytime playRun4 "c1" = some 150 ∧
    playerPlaytime playRun4 "p1" = some 150 := by
  refine ⟨?_, by decide, by decide, by decide, by decide, by decide⟩
  intro store uid cid secs now ch pl hf hown
  simp [update_playtime, hf, hown]

/-- C7 witness: the universal part applied to the first concrete 30 s
call on `store1`. -/
theorem C7_update_playtime_witness :
    update_playtime store1 (Except.ok "auth-alice") "c1" 30 100
      = (Except.ok { character_play_time := 30, player_total_play_time := 30 },
         { players := store1.players.map (fun p =>
             if p.id == "p1" then
               { p with total_play_time_seconds := 30 }
             else p),
           characters := store1.characters.map (fun c =>
             if c.id == "c1" then
               { c with total_play_time_seconds := 30, last_played_at := 100 }
             else c) }) :=
  C7_update_playtime.1 store1 "auth-alice" "c1" 30 100 char1 player1
    (by decide) (by decide)

end SwOw
